import Mathlib

/-!
# Verification of the VISAGE camera/face-detection pipeline

Shallow embedding of `src/visage.py` (a Streamlit face-detection app):
frames are pixel maps, machine state (the FPS globals, the camera handle,
the resource cache) is passed explicitly, Python exceptions are `Except`
values, and `st.stop()` — Streamlit's control-flow signal, which derives
from `BaseException` and is therefore *not* intercepted by the script's
broad `except Exception` handlers — is modelled as a fatal outcome that
propagates. `time.sleep` calls have no observable effect in this pure
model and are not represented. Wall-clock reads (`time.time()`) are passed
in as explicit rational timestamps.
-/

set_option autoImplicit false

namespace Visage

/-- One pixel of a colour frame: three channel values `c0, c1, c2` in storage
order. Which colour each channel holds depends on the frame's current layout
(BGR straight off `cv2.VideoCapture`, RGB after `cv2.cvtColor(..., COLOR_BGR2RGB)`). -/
structure Pixel where
  c0 : ℚ
  c1 : ℚ
  c2 : ℚ
deriving DecidableEq

/-- A colour frame, mirroring a numpy `H×W×3` array: dimensions plus a pixel
map. `px x y` is the pixel at column `x`, row `y`. -/
structure Frame where
  width : ℕ
  height : ℕ
  px : ℕ → ℕ → Pixel

/-- numpy's `frame.size` for an `H×W×3` array: the total number of scalar
entries. Zero exactly when the frame has no pixels. -/
def Frame.size (f : Frame) : ℕ := f.height * f.width * 3

/-- A single-channel image as produced by `cv2.cvtColor(..., COLOR_BGR2GRAY)`. -/
structure GrayFrame where
  width : ℕ
  height : ℕ
  px : ℕ → ℕ → ℚ

/-- `cv2.cvtColor(frame, cv2.COLOR_BGR2RGB)` (`main`, line 156): reverses the
channel order of every pixel. -/
def cvtColorBGR2RGB (f : Frame) : Frame :=
  { f with px := fun x y => ⟨(f.px x y).c2, (f.px x y).c1, (f.px x y).c0⟩ }

/-- `cv2.cvtColor(frame, cv2.COLOR_BGR2GRAY)` (`detect_faces_frame`, line 98):
the Rec.601 luma combination `0.299·R + 0.587·G + 0.114·B` computed under a
BGR channel layout, i.e. weights `0.114, 0.587, 0.299` on channels `0, 1, 2`
of whatever array it is handed. -/
def cvtColorBGR2GRAY (f : Frame) : GrayFrame :=
  ⟨f.width, f.height, fun x y =>
    114/1000 * (f.px x y).c0 + 587/1000 * (f.px x y).c1 + 299/1000 * (f.px x y).c2⟩

/-! ## FPS meter (`calculate_fps`, lines 46–54) -/

/-- The module-level globals `prev_frame_time` and `fps` (lines 17–18). -/
structure FpsState where
  prev_frame_time : ℚ
  fps : ℚ
deriving DecidableEq

/-- The initial module state: `prev_frame_time = 0`, `fps = 0`. -/
def initFpsState : FpsState := ⟨0, 0⟩

/-- Python's `1 / d` on floats, with the `ZeroDivisionError` made explicit. -/
def pyDiv1 (d : ℚ) : Except Unit ℚ :=
  if d = 0 then .error () else .ok (1 / d)

/-- Python's `int(q)`: truncation toward zero. -/
def pyInt (q : ℚ) : ℤ :=
  if 0 ≤ q then ⌊q⌋ else ⌈q⌉

/-- `calculate_fps()`: computes `1 / (curr_frame_time - prev_frame_time)`,
catching `ZeroDivisionError` by setting `fps = 0`; then unconditionally
updates `prev_frame_time` and returns `int(fps)`. The wall-clock read
`time.time()` is the explicit argument `now`; the globals are the explicit
state `s`. -/
def calculate_fps (now : ℚ) (s : FpsState) : ℤ × FpsState :=
  let f : ℚ :=
    match pyDiv1 (now - s.prev_frame_time) with
    | .ok v => v
    | .error _ => 0
  (pyInt f, ⟨now, f⟩)

/-! ## Camera handle release (`safe_camera_release`, lines 56–59) -/

/-- A `cv2.VideoCapture` handle; `opened` mirrors `isOpened()`. -/
structure Cap where
  opened : Bool
deriving DecidableEq

/-- `safe_camera_release(cap)`: releases the handle only when
`cap is not None and cap.isOpened()`; otherwise a no-op. The trailing
`time.sleep(0.1)` debounce has no observable state here. `none` models a
Python `None` argument. -/
def safe_camera_release : Option Cap → Option Cap
  | none => none
  | some c => if c.opened then some ⟨false⟩ else some c

/-- An operation on the process's single camera slot (the `cap` variable in
`main`). -/
inductive CamOp where
  | openCam
  | closeCam
deriving DecidableEq

/-- One step of the camera slot. `closeCam` is `safe_camera_release`;
`openCam` models a successful `initialize_camera()` storing a freshly opened
handle into the slot (in `main` the slot is always released before a reopen,
lines 151–153). -/
def camStep : Option Cap → CamOp → Option Cap
  | s, .closeCam => safe_camera_release s
  | _, .openCam => some ⟨true⟩

/-- Run a sequence of open/close operations on the camera slot. -/
def camRun (s : Option Cap) (ops : List CamOp) : Option Cap :=
  ops.foldl camStep s

/-- Number of open handles held in the slot (0 or 1 by construction of the
single-slot model, matching exclusive device ownership). -/
def openCount : Option Cap → ℕ
  | none => 0
  | some c => if c.opened then 1 else 0

/-! ## Camera initialization (`initialize_camera`, lines 61–91) -/

/-- Environment of one `initialize_camera()` call: whether `VideoCapture(0)`
opens (`cap.isOpened()`), and the outcome of the k-th `cap.read()` during
validation — `none` models `ret` false or `frame is None`, `some f` a
returned array. -/
structure CamEnv where
  openOk : Bool
  readResult : ℕ → Option Frame

/-- The test `ret and frame is not None and frame.size > 0` applied to one
read outcome. -/
def validRead : Option Frame → Bool
  | none => false
  | some f => decide (0 < f.size)

/-- The camera error the spec calls `CameraUnavailable`: in the source it is
the `RuntimeError` raised in `initialize_camera`, reported via `st.error`
and escalated with `st.stop()`. -/
inductive CamError where
  | cameraUnavailable : String → CamError

/-- Observable outcome of `initialize_camera()`: the result (`st.stop()` is
the fatal `.error` case), how many validation reads were performed, and
whether a capture handle is left open afterwards. -/
structure InitOutcome where
  result : Except CamError Cap
  reads : ℕ
  handleOpen : Bool

/-- The validation loop `for _ in range(3)` (lines 78–83): given the attempt
budget and the number of reads already used, returns whether a valid frame
was obtained and the total number of reads performed. Each failed attempt is
followed by `time.sleep(0.5)` (unobservable here). -/
def validationReads (env : CamEnv) : ℕ → ℕ → Bool × ℕ
  | 0, used => (false, used)
  | budget + 1, used =>
    if validRead (env.readResult used) then (true, used + 1)
    else validationReads env budget (used + 1)

/-- `initialize_camera()`: pre-open defensive release of indices 0–4 (no
observable state here), open index 0; on open failure the `except` block
releases the not-opened local handle (a no-op) and calls `st.stop()`. On
open success, set the resolution (best effort, unmodelled) and run up to 3
validation reads; if none yields a valid frame, the raised `RuntimeError`
is caught, `safe_camera_release(cap)` releases the handle, and `st.stop()`
makes the failure fatal. -/
def initialize_camera (env : CamEnv) : InitOutcome :=
  if env.openOk then
    match validationReads env 3 0 with
    | (true, r) => ⟨.ok ⟨true⟩, r, true⟩
    | (false, r) =>
      ⟨.error (.cameraUnavailable "La caméra ne produit pas d'images valides"), r, false⟩
  else
    ⟨.error (.cameraUnavailable "Échec de l'ouverture de la caméra"), 0, false⟩

/-! ## Face detection and drawing (`detect_faces_frame`, lines 93–118) -/

/-- A detected face box `(x, y, w, h)` in frame coordinates, one entry of
the array returned by `detectMultiScale`. -/
structure FaceBox where
  x : ℕ
  y : ℕ
  w : ℕ
  h : ℕ
deriving DecidableEq

/-- A loaded cascade classifier seen through its `detectMultiScale` call:
given the gray image, `scaleFactor`, `minNeighbors` and `minSize`, it either
returns the detected boxes or fails with an internal OpenCV error. -/
def Detector : Type :=
  GrayFrame → ℚ → ℕ → ℕ × ℕ → Except String (List FaceBox)

/-- The pixel region written by
`cv2.rectangle(frame, (x, y), (x+w, y+h), color, 2)`: a border band of
thickness 2 centred on the box boundary. -/
def rectRegion (b : FaceBox) (i j : ℤ) : Bool :=
  decide ((((b.x : ℤ) - 1 ≤ i ∧ i ≤ (b.x : ℤ) + b.w + 1) ∧
           ((b.y : ℤ) - 1 ≤ j ∧ j ≤ (b.y : ℤ) + b.h + 1)) ∧
          ¬(((b.x : ℤ) + 2 ≤ i ∧ i ≤ (b.x : ℤ) + b.w - 2) ∧
            ((b.y : ℤ) + 2 ≤ j ∧ j ≤ (b.y : ℤ) + b.h - 2)))

/-- Bounding region of the glyph raster written by
`cv2.putText(frame, text, (ox, oy), FONT_HERSHEY_SIMPLEX, scale, color, 2)`:
the text advances to the right of the origin and extends above the baseline,
with per-glyph advance and height proportional to the font scale (a
conservative bounding model of the Hershey font metrics). -/
def textRegion (ox oy : ℤ) (scale : ℚ) (len : ℕ) (i j : ℤ) : Bool :=
  decide (((ox : ℚ) - 1 ≤ (i : ℚ) ∧ (i : ℚ) ≤ (ox : ℚ) + 30 * scale * len + 1) ∧
          ((oy : ℚ) - 30 * scale - 1 ≤ (j : ℚ) ∧ (j : ℚ) ≤ (oy : ℚ) + 10 * scale + 1))

/-- `cv2.rectangle` with thickness 2: writes `color` on the border band, in
place; every other pixel keeps its value. -/
def cv2rectangle (f : Frame) (b : FaceBox) (color : Pixel) : Frame :=
  { f with px := fun x y => if rectRegion b x y then color else f.px x y }

/-- `cv2.putText`: writes `color` inside the text's bounding region (a
conservative model of the glyph raster); every pixel outside the region
keeps its value. -/
def cv2putText (f : Frame) (text : String) (ox oy : ℤ) (scale : ℚ)
    (color : Pixel) : Frame :=
  { f with px := fun x y =>
      if textRegion ox oy scale text.length x y then color else f.px x y }

/-- The per-face drawing loop (lines 106–108): for each box, the rectangle,
then the label "Visage" at `(x, y - 10)` with font scale 0.5. -/
def drawFaces (color : Pixel) (f : Frame) (faces : List FaceBox) : Frame :=
  faces.foldl (fun acc b =>
    cv2putText (cv2rectangle acc b color) "Visage" b.x ((b.y : ℤ) - 10) (1/2) color) f

/-- The count overlay text (line 110). -/
def countText (n : ℕ) : String := "Visages: " ++ toString n

/-- The FPS overlay text (line 112). -/
def fpsText (v : ℤ) : String := "FPS: " ++ toString v

/-- Failures of `detect_faces_frame`'s `try` block: the `ValueError("Frame
invalide")` the function itself raises (the spec's `InvalidFrame`), or an
internal OpenCV failure. -/
inductive DetectError where
  | invalidFrame : String → DetectError
  | internalFailure : String → DetectError

/-- The `try` block of `detect_faces_frame` (lines 94–114): validate the
frame, convert to gray with `COLOR_BGR2GRAY`, run `detectMultiScale` with
`minSize=(30, 30)`, draw the per-face overlays, draw the count overlay at
`(10, 30)`, tick the FPS meter, draw the FPS overlay at `(10, 70)`, and
return the mutated frame with the face count. -/
def detectBody (frame : Option Frame) (face_cascade : Detector) (scaleFactor : ℚ)
    (minNeighbors : ℕ) (rectangle_color : Pixel) (now : ℚ) (s : FpsState) :
    Except DetectError ((Frame × ℕ) × FpsState) :=
  match frame with
  | none => .error (.invalidFrame "Frame invalide")
  | some f =>
    if f.size = 0 then .error (.invalidFrame "Frame invalide")
    else
      let gray := cvtColorBGR2GRAY f
      match face_cascade gray scaleFactor minNeighbors (30, 30) with
      | .error e => .error (.internalFailure e)
      | .ok faces =>
        let f1 := drawFaces rectangle_color f faces
        let f2 := cv2putText f1 (countText faces.length) 10 30 1 rectangle_color
        let t := calculate_fps now s
        let f3 := cv2putText f2 (fpsText t.1) 10 70 1 rectangle_color
        .ok ((f3, faces.length), t.2)

/-- `detect_faces_frame(frame, face_cascade, scaleFactor, minNeighbors,
rectangle_color)`: the `try` block above with the blanket `except Exception`
handler (lines 116–118), which reports the failure via `st.error` and
returns `(frame, 0)`, leaving the FPS globals untouched. -/
def detect_faces_frame (frame : Option Frame) (face_cascade : Detector)
    (scaleFactor : ℚ) (minNeighbors : ℕ) (rectangle_color : Pixel)
    (now : ℚ) (s : FpsState) : (Option Frame × ℕ) × FpsState :=
  match detectBody frame face_cascade scaleFactor minNeighbors rectangle_color now s with
  | .ok ((f, n), s') => ((some f, n), s')
  | .error _ => ((frame, 0), s)

/-- A loaded detector that reports zero faces on every image. -/
def detectNone : Detector := fun _ _ _ _ => .ok []

/-- A detector whose `detectMultiScale` fails internally. -/
def detectFail : Detector := fun _ _ _ _ => .error "cv2.error"

/-- Union of every pixel region the overlays of one `detect_faces_frame`
call may write: each face's rectangle band and its label region, the count
overlay at `(10, 30)` with scale 1, and the FPS overlay at `(10, 70)` with
scale 1. -/
def overlayRegion (faces : List FaceBox) (n : ℕ) (fpsVal : ℤ) (i j : ℤ) : Bool :=
  faces.any (fun b =>
    rectRegion b i j ||
    textRegion b.x ((b.y : ℤ) - 10) (1/2) (String.length "Visage") i j) ||
  textRegion 10 30 1 (countText n).length i j ||
  textRegion 10 70 1 (fpsText fpsVal).length i j

/-- The single-channel image `detect_faces_frame` hands to `detectMultiScale`
for a frame freshly read from the camera: `main` first converts the frame
BGR→RGB (line 156), then `detect_faces_frame` applies `COLOR_BGR2GRAY`
(line 98). -/
def pipelineGray (camFrame : Frame) : GrayFrame :=
  cvtColorBGR2GRAY (cvtColorBGR2RGB camFrame)

/-- The spec's notion (§4.3): the luminance (single-channel intensity)
representation of an RGB-ordered frame — Rec.601 weights 0.299, 0.587,
0.114 on R, G, B. -/
def luminanceRGB (f : Frame) : GrayFrame :=
  ⟨f.width, f.height, fun x y =>
    299/1000 * (f.px x y).c0 + 587/1000 * (f.px x y).c1 + 114/1000 * (f.px x y).c2⟩

/-- A 1×1 camera frame (BGR layout) whose only pixel is pure red:
`B = 0, G = 0, R = 255`. -/
def redCamFrame : Frame := ⟨1, 1, fun _ _ => ⟨0, 0, 255⟩⟩

/-! ## Cascade classifier loading (`load_cascade_classifier`, lines 20–44) -/

/-- A `cv2.CascadeClassifier` object; `empty` mirrors `empty()`. -/
structure CascadeClassifier where
  empty : Bool
deriving DecidableEq

/-- Environment of one loader body run: whether the cascade file already
exists locally, whether `urllib.request.urlretrieve` succeeds, and whether
the constructed classifier reports itself empty. -/
structure CascadeEnv where
  fileExists : Bool
  downloadOk : Bool
  loadedEmpty : Bool

/-- The spec's `ResourceUnavailable`: in the source, an `st.error` report
followed by the fatal `st.stop()`. -/
inductive LoadError where
  | resourceUnavailable : String → LoadError

/-- The body of `load_cascade_classifier` (the function decorated with
`@st.cache_resource`): download the cascade file when absent, stopping
fatally on a download error; construct the classifier; raise `ValueError`
(caught, reported, then fatal `st.stop()`) when it reports itself empty;
otherwise return it. -/
def load_cascade_body (env : CascadeEnv) : Except LoadError CascadeClassifier :=
  if !env.fileExists && !env.downloadOk then
    .error (.resourceUnavailable "Erreur de téléchargement")
  else
    let face_cascade : CascadeClassifier := ⟨env.loadedEmpty⟩
    if face_cascade.empty then
      .error (.resourceUnavailable "Erreur lors de la création du classificateur")
    else
      .ok face_cascade

/-- Process-wide state of the `@st.cache_resource` cache around the loader:
the cached classifier, how many times the body actually ran, and whether
the process was aborted by `st.stop()`. -/
structure LoadProcState where
  cache : Option CascadeClassifier
  bodyRuns : ℕ
  aborted : Bool
deriving DecidableEq

/-- The pristine process state: empty cache, no body runs, not aborted. -/
def initLoadState : LoadProcState := ⟨none, 0, false⟩

/-- One call of the cached `load_cascade_classifier()`: a cache hit returns
the stored classifier without running the body; a miss runs the body once,
caching the classifier on success and aborting the process on failure. The
aborted state is absorbing (no further calls happen in a stopped process). -/
def load_cascade_classifier (env : CascadeEnv) (ps : LoadProcState) :
    Except LoadError CascadeClassifier × LoadProcState :=
  if ps.aborted then
    (.error (.resourceUnavailable "processus arrêté"), ps)
  else
    match ps.cache with
    | some c => (.ok c, ps)
    | none =>
      match load_cascade_body env with
      | .ok c => (.ok c, ⟨some c, ps.bodyRuns + 1, false⟩)
      | .error e => (.error e, ⟨none, ps.bodyRuns + 1, true⟩)

/-- A sequence of loader calls across one process lifetime. -/
def load_cascade_seq (envs : List CascadeEnv) (ps : LoadProcState) : LoadProcState :=
  envs.foldl (fun acc env => (load_cascade_classifier env acc).2) ps

/-- Invariant of the loader cache: the body ran at most once; after any run
the cache is filled or the process is aborted; and a cached classifier is
never empty. -/
def loadInv (ps : LoadProcState) : Prop :=
  ps.bodyRuns ≤ 1 ∧
  (ps.bodyRuns = 0 ∨ ps.cache.isSome = true ∨ ps.aborted = true) ∧
  (∀ c, ps.cache = some c → c.empty = false)

/-! ## The capture loop and `main` (lines 120–178) -/

/-- Environment of one run of `main`'s capture loop: the result of
`cap.read()` at each loop iteration, the `initialize_camera` environment of
each mid-run reopen, the loaded detector, the sidebar parameters, and the
wall clock at each iteration. -/
structure LoopEnv where
  camRead : ℕ → Option Frame
  reopenEnv : ℕ → CamEnv
  cascade : Detector
  scaleFactor : ℚ
  minNeighbors : ℕ
  color : Pixel
  clock : ℕ → ℚ

/-- Outcome of the `while run:` loop: whether it was exited by the fatal
`st.stop()` escalation of a failed reopen, the number of loop-body entries,
the camera-slot state at loop exit (before `main`'s `finally`), and the FPS
globals at exit. -/
structure LoopResult where
  fatal : Bool
  iters : ℕ
  cap : Option Cap
  fpsState : FpsState

/-- The `while run:` loop (lines 146–171), fueled. Each iteration reads a
frame; a valid frame is converted BGR→RGB and handed to
`detect_faces_frame`, then the loop continues. On a read failure the handle
is released and `initialize_camera` is called again: success stores the new
handle and continues; failure raises `st.stop()`, which the per-iteration
`except Exception` handler does not intercept, so the loop terminates with
the old handle released (and no handle left by `initialize_camera` itself).
Exhausted fuel models the external run flag ending the loop. -/
def captureLoop (env : LoopEnv) : ℕ → Cap → ℕ → ℕ → FpsState → LoopResult
  | 0, cap, n, _, s => ⟨false, n, some cap, s⟩
  | fuel + 1, cap, n, k, s =>
    match env.camRead n with
    | some f =>
      if 0 < f.size then
        let r := detect_faces_frame (some (cvtColorBGR2RGB f)) env.cascade
          env.scaleFactor env.minNeighbors env.color (env.clock n) s
        captureLoop env fuel cap (n + 1) k r.2
      else
        match (initialize_camera (env.reopenEnv k)).result with
        | .ok cap2 => captureLoop env fuel cap2 (n + 1) (k + 1) s
        | .error _ => ⟨true, n + 1, some ⟨false⟩, s⟩
    | none =>
      match (initialize_camera (env.reopenEnv k)).result with
      | .ok cap2 => captureLoop env fuel cap2 (n + 1) (k + 1) s
      | .error _ => ⟨true, n + 1, some ⟨false⟩, s⟩

/-- Outcome of `main`: whether it ended in a fatal `st.stop`, the number of
loop iterations, and the camera-slot state after the `finally` block. -/
structure MainResult where
  fatal : Bool
  iters : ℕ
  cap : Option Cap

/-- `main` (lines 120–178): call `initialize_camera`; a startup failure is
`st.stop()` with no `cap` ever bound in `main`'s scope, so the `finally`
block releases nothing (`initialize_camera` already released its own
handle). Otherwise run the capture loop when the run flag is set. On every
path the `finally` block runs `safe_camera_release` on the slot. -/
def visage_main (env : LoopEnv) (initEnv : CamEnv) (run : Bool) (fuel : ℕ) :
    MainResult :=
  match (initialize_camera initEnv).result with
  | .error _ => ⟨true, 0, none⟩
  | .ok cap0 =>
    if run then
      let r := captureLoop env fuel cap0 0 0 initFpsState
      ⟨r.fatal, r.iters, safe_camera_release r.cap⟩
    else
      ⟨false, 0, safe_camera_release (some cap0)⟩

theorem openCount_le_one (s : Option Cap) : openCount s ≤ 1 := by
  rcases s with _ | c
  · exact Nat.zero_le 1
  · by_cases hc : c.opened = true
    · simp [openCount, hc]
    · simp [openCount, hc]

theorem openCount_release (s : Option Cap) :
    openCount (safe_camera_release s) = 0 := by
  rcases s with _ | c
  · rfl
  · rcases hc : c.opened
    · simp [safe_camera_release, openCount, hc]
    · simp [safe_camera_release, openCount, hc]

/-- C2: when the device opens but no read ever yields a valid frame,
`initialize_camera` performs exactly 3 validation reads, fails with the
`CameraUnavailable` error, and leaves no open handle. -/
theorem initialize_camera_exhausts_reads (env : CamEnv)
    (hopen : env.openOk = true)
    (hbad : ∀ k, k < 3 → validRead (env.readResult k) = false) :
    (∃ msg, (initialize_camera env).result = .error (.cameraUnavailable msg)) ∧
    (initialize_camera env).reads = 3 ∧
    (initialize_camera env).handleOpen = false := by
  have h0 := hbad 0 (by norm_num)
  have h1 := hbad 1 (by norm_num)
  have h2 := hbad 2 (by norm_num)
  have hv : validationReads env 3 0 = (false, 3) := by
    simp [validationReads, h0, h1, h2]
  refine ⟨⟨"La caméra ne produit pas d'images valides", ?_⟩, ?_, ?_⟩ <;>
    simp [initialize_camera, hopen, hv]

/-- C2 witness: a camera that opens but never returns a frame is rejected
after exactly 3 reads, with the handle released. -/
theorem initialize_camera_exhausts_reads_witness :
    (∃ msg, (initialize_camera ⟨true, fun _ => none⟩).result =
      .error (.cameraUnavailable msg)) ∧
    (initialize_camera ⟨true, fun _ => none⟩).reads = 3 ∧
    (initialize_camera ⟨true, fun _ => none⟩).handleOpen = false :=
  initialize_camera_exhausts_reads ⟨true, fun _ => none⟩ rfl (fun _ _ => rfl)

/-- C4: `calculate_fps` returns 0 whenever the elapsed time is zero (two
calls with the same timestamp), returns 0 on a first call from the initial
state under any realistic wall clock (`time.time() > 1` second since epoch),
and updates `prev_frame_time` on every call. The division fault is absorbed
by the `except ZeroDivisionError` branch, so the function is total: it never
propagates a division error. -/
theorem calculate_fps_zero_elapsed (now : ℚ) (s : FpsState) :
    (now = s.prev_frame_time → (calculate_fps now s).1 = 0) ∧
    (s.prev_frame_time = 0 → 1 < now → (calculate_fps now s).1 = 0) ∧
    (calculate_fps now s).2.prev_frame_time = now := by
  refine ⟨?_, ?_, rfl⟩
  · intro h
    simp [calculate_fps, pyDiv1, pyInt, h]
  · intro h0 h1
    have hne : now - s.prev_frame_time ≠ 0 := by
      rw [h0]; intro hc; rw [sub_zero] at hc; rw [hc] at h1; exact absurd h1 (by norm_num)
    have hpos : (0 : ℚ) < now := lt_trans one_pos h1
    have hval : calculate_fps now s =
        (pyInt (1 / (now - s.prev_frame_time)), ⟨now, 1 / (now - s.prev_frame_time)⟩) := by
      simp [calculate_fps, pyDiv1, hne]
    rw [hval]
    have hle : (0 : ℚ) ≤ 1 / (now - s.prev_frame_time) := by
      rw [h0, sub_zero]; positivity
    have hlt : 1 / (now - s.prev_frame_time) < 1 := by
      rw [h0, sub_zero]
      rw [div_lt_one hpos]; exact h1
    show pyInt (1 / (now - s.prev_frame_time)) = 0
    unfold pyInt
    rw [if_pos hle]
    exact Int.floor_eq_zero_iff.mpr ⟨hle, hlt⟩

/-- C4 witness: two ticks at timestamp 5 return 0; a first call from the
initial state at time 2 returns 0; the stored timestamp becomes the call's
timestamp. -/
theorem calculate_fps_zero_elapsed_witness :
    (calculate_fps 5 ⟨5, 3⟩).1 = 0 ∧
    (calculate_fps 2 initFpsState).1 = 0 ∧
    (calculate_fps 5 ⟨5, 3⟩).2.prev_frame_time = 5 :=
  ⟨(calculate_fps_zero_elapsed 5 ⟨5, 3⟩).1 rfl,
   (calculate_fps_zero_elapsed 2 initFpsState).2.1 rfl (by norm_num),
   (calculate_fps_zero_elapsed 5 ⟨5, 3⟩).2.2⟩

/-- C6: `safe_camera_release` is idempotent, is a no-op on `None` and on an
already-released handle, any operation sequence ending in a close leaves the
device released, and the single camera slot never holds more than one open
handle. -/
theorem safe_camera_release_idempotent :
    (∀ s, safe_camera_release (safe_camera_release s) = safe_camera_release s) ∧
    (safe_camera_release none = none) ∧
    (∀ c : Cap, c.opened = false → safe_camera_release (some c) = some c) ∧
    (∀ s ops, openCount (camRun s (ops ++ [CamOp.closeCam])) = 0) ∧
    (∀ s ops, openCount (camRun s ops) ≤ 1) := by
  refine ⟨?_, rfl, ?_, ?_, ?_⟩
  · intro s
    rcases s with _ | c
    · rfl
    · rcases hc : c.opened
      · simp [safe_camera_release, hc]
      · simp [safe_camera_release, hc]
  · intro c hc
    simp [safe_camera_release, hc]
  · intro s ops
    have : camRun s (ops ++ [CamOp.closeCam]) = safe_camera_release (camRun s ops) := by
      simp [camRun, List.foldl_append, camStep]
    rw [this]
    exact openCount_release _
  · intro s ops
    exact openCount_le_one _

/-- C6 witness: releasing an already-released handle twice is the identity,
and opening then closing leaves zero open handles. -/
theorem safe_camera_release_idempotent_witness :
    safe_camera_release (safe_camera_release (some ⟨true⟩)) = safe_camera_release (some ⟨true⟩) ∧
    safe_camera_release (some ⟨false⟩) = some ⟨false⟩ ∧
    openCount (camRun none [CamOp.openCam, CamOp.closeCam]) = 0 :=
  ⟨safe_camera_release_idempotent.1 (some ⟨true⟩),
   safe_camera_release_idempotent.2.2.1 ⟨false⟩ rfl,
   safe_camera_release_idempotent.2.2.2.1 none [CamOp.openCam]⟩

/-- C3: on a well-formed non-empty frame, the body of `detect_faces_frame`
succeeds (with the loaded detector returning its box list) — nothing is
raised; an `InvalidFrame` error arises exactly when the frame is null or has
zero size; and every error of the body is non-fatal to the caller:
`detect_faces_frame` returns normally with `(frame, 0)`, so the pipeline
continues. -/
theorem detect_faces_frame_invalid_only (frame : Option Frame) (cascade : Detector)
    (sf : ℚ) (mn : ℕ) (color : Pixel) (now : ℚ) (s : FpsState) :
    (∀ f faces, frame = some f → f.size ≠ 0 →
      cascade (cvtColorBGR2GRAY f) sf mn (30, 30) = .ok faces →
      ∃ out, detectBody frame cascade sf mn color now s = .ok out) ∧
    (∀ msg, detectBody frame cascade sf mn color now s = .error (.invalidFrame msg) →
      frame = none ∨ ∃ f, frame = some f ∧ f.size = 0) ∧
    ((frame = none ∨ ∃ f, frame = some f ∧ f.size = 0) →
      ∃ msg, detectBody frame cascade sf mn color now s = .error (.invalidFrame msg)) ∧
    (∀ e, detectBody frame cascade sf mn color now s = .error e →
      detect_faces_frame frame cascade sf mn color now s = ((frame, 0), s)) := by
  refine ⟨?_, ?_, ?_, ?_⟩
  · rintro f faces rfl hsz hdet
    simp only [detectBody, if_neg hsz, hdet]
    exact ⟨_, rfl⟩
  · rcases frame with _ | f
    · intro msg _; exact Or.inl rfl
    · intro msg h
      by_cases hsz : f.size = 0
      · exact Or.inr ⟨f, rfl, hsz⟩
      · exfalso
        rcases hc : cascade (cvtColorBGR2GRAY f) sf mn (30, 30) with e | faces <;>
          simp [detectBody, hsz, hc] at h
  · intro hcase
    rcases hcase with hnone | ⟨f, hf, hsz⟩
    · subst hnone; exact ⟨"Frame invalide", rfl⟩
    · subst hf
      exact ⟨"Frame invalide", by simp [detectBody, hsz]⟩
  · intro e he
    simp [detect_faces_frame, he]

/-- C3 witness: on a concrete 3×3 frame with a zero-face detector the body
succeeds; on a null frame the body fails with `InvalidFrame` and the caller
still receives a normal `(frame, 0)` result. -/
theorem detect_faces_frame_invalid_only_witness :
    (∃ out, detectBody (some ⟨3, 3, fun _ _ => ⟨7, 7, 7⟩⟩) detectNone (11/10) 5
      ⟨0, 255, 0⟩ 2 initFpsState = .ok out) ∧
    (∃ msg, detectBody none detectNone (11/10) 5 ⟨0, 255, 0⟩ 2 initFpsState =
      .error (.invalidFrame msg)) ∧
    detect_faces_frame none detectNone (11/10) 5 ⟨0, 255, 0⟩ 2 initFpsState =
      ((none, 0), initFpsState) := by
  refine ⟨?_, ?_, ?_⟩
  · exact (detect_faces_frame_invalid_only (some ⟨3, 3, fun _ _ => ⟨7, 7, 7⟩⟩)
      detectNone (11/10) 5 ⟨0, 255, 0⟩ 2 initFpsState).1 _ [] rfl (by decide) rfl
  · exact (detect_faces_frame_invalid_only none
      detectNone (11/10) 5 ⟨0, 255, 0⟩ 2 initFpsState).2.2.1 (Or.inl rfl)
  · exact (detect_faces_frame_invalid_only none
      detectNone (11/10) 5 ⟨0, 255, 0⟩ 2 initFpsState).2.2.2 _ rfl

/-- C10: `detect_faces_frame` never propagates an exception: whenever its
`try` block fails — null frame, zero-size frame, or an internal detector
failure — the blanket handler returns the input frame object with face
count 0 and the FPS state untouched; and a genuine zero-face detection also
reports count 0, so from the returned count the caller cannot tell an
internal failure from a frame with no faces. -/
theorem detect_faces_frame_catches_all (frame : Option Frame) (cascade : Detector)
    (sf : ℚ) (mn : ℕ) (color : Pixel) (now : ℚ) (s : FpsState) :
    (∀ e, detectBody frame cascade sf mn color now s = .error e →
      detect_faces_frame frame cascade sf mn color now s = ((frame, 0), s)) ∧
    (∀ f, frame = some f → f.size ≠ 0 →
      (detect_faces_frame frame detectNone sf mn color now s).1.2 = 0) := by
  constructor
  · intro e he
    simp [detect_faces_frame, he]
  · rintro f rfl hsz
    simp [detect_faces_frame, detectBody, hsz, detectNone]

/-- C10 witness: with a failing detector and a null frame the caller gets
`(frame, 0)` and an unchanged FPS state; a genuine zero-face detection on a
3×3 frame also returns count 0. -/
theorem detect_faces_frame_catches_all_witness :
    detect_faces_frame none detectFail (11/10) 5 ⟨0, 255, 0⟩ 2 initFpsState =
      ((none, 0), initFpsState) ∧
    (detect_faces_frame (some ⟨3, 3, fun _ _ => ⟨7, 7, 7⟩⟩) detectNone (11/10) 5
      ⟨0, 255, 0⟩ 2 initFpsState).1.2 = 0 :=
  ⟨(detect_faces_frame_catches_all none detectFail (11/10) 5 ⟨0, 255, 0⟩ 2
      initFpsState).1 _ rfl,
   (detect_faces_frame_catches_all (some ⟨3, 3, fun _ _ => ⟨7, 7, 7⟩⟩) detectFail
      (11/10) 5 ⟨0, 255, 0⟩ 2 initFpsState).2 _ rfl (by decide)⟩

theorem cv2rectangle_px_outside (f : Frame) (b : FaceBox) (c : Pixel) (x y : ℕ)
    (h : rectRegion b x y = false) : (cv2rectangle f b c).px x y = f.px x y := by
  simp [cv2rectangle, h]

theorem cv2putText_px_outside (f : Frame) (t : String) (ox oy : ℤ) (sc : ℚ)
    (c : Pixel) (x y : ℕ)
    (h : textRegion ox oy sc t.length x y = false) :
    (cv2putText f t ox oy sc c).px x y = f.px x y := by
  simp [cv2putText, h]

theorem drawFaces_px_outside (c : Pixel) (faces : List FaceBox) :
    ∀ (f : Frame) (x y : ℕ),
      (∀ b ∈ faces, rectRegion b x y = false ∧
        textRegion b.x ((b.y : ℤ) - 10) (1/2) (String.length "Visage") x y = false) →
      (drawFaces c f faces).px x y = f.px x y := by
  induction faces with
  | nil => intro f x y _; rfl
  | cons b rest ih =>
    intro f x y h
    have hb := h b (List.mem_cons_self b rest)
    have hstep : drawFaces c f (b :: rest) =
        drawFaces c (cv2putText (cv2rectangle f b c) "Visage" b.x ((b.y : ℤ) - 10)
          (1/2) c) rest := rfl
    rw [hstep, ih _ x y (fun b' hb' => h b' (List.mem_cons_of_mem b hb'))]
    rw [cv2putText_px_outside _ _ _ _ _ _ _ _ hb.2]
    exact cv2rectangle_px_outside _ _ _ _ _ hb.1

/-- C8: the overlays drawn by `detect_faces_frame` are confined — for a
non-empty frame on which the detector returns `faces`, every pixel outside
all face rectangles, all face labels, and the two fixed overlay text regions
has the same value in the returned frame as in the input frame. -/
theorem detect_faces_frame_pixels_confined (f : Frame) (cascade : Detector)
    (sf : ℚ) (mn : ℕ) (color : Pixel) (now : ℚ) (s : FpsState) (faces : List FaceBox)
    (hsz : f.size ≠ 0)
    (hdet : cascade (cvtColorBGR2GRAY f) sf mn (30, 30) = .ok faces) :
    ∀ x y : ℕ, overlayRegion faces faces.length (calculate_fps now s).1 x y = false →
      ∃ g : Frame,
        (detect_faces_frame (some f) cascade sf mn color now s).1.1 = some g ∧
        g.px x y = f.px x y := by
  intro x y hout
  have heq : detect_faces_frame (some f) cascade sf mn color now s =
      ((some (cv2putText
                (cv2putText (drawFaces color f faces) (countText faces.length) 10 30 1 color)
                (fpsText (calculate_fps now s).1) 10 70 1 color),
        faces.length), (calculate_fps now s).2) := by
    simp [detect_faces_frame, detectBody, hsz, hdet]
  simp only [overlayRegion, Bool.or_eq_false_iff, List.any_eq_false] at hout
  obtain ⟨⟨hA, hB⟩, hC⟩ := hout
  refine ⟨cv2putText
      (cv2putText (drawFaces color f faces) (countText faces.length) 10 30 1 color)
      (fpsText (calculate_fps now s).1) 10 70 1 color, ?_, ?_⟩
  · rw [heq]
  · rw [cv2putText_px_outside _ _ _ _ _ _ _ _ hC]
    rw [cv2putText_px_outside _ _ _ _ _ _ _ _ hB]
    refine drawFaces_px_outside color faces f x y ?_
    intro b hbmem
    have hb := hA b hbmem
    simp only [Bool.or_eq_true, not_or, Bool.not_eq_true] at hb
    exact hb

theorem textRegion_false_left (ox oy : ℤ) (sc : ℚ) (len : ℕ) (i j : ℤ)
    (h : (i : ℚ) < (ox : ℚ) - 1) : textRegion ox oy sc len i j = false := by
  simp only [textRegion, decide_eq_false_iff_not]
  intro hc
  exact absurd hc.1.1 (not_le.mpr h)

/-- C8 witness: with zero faces detected on a concrete 3×3 frame, the pixel
at (0, 0) — outside both fixed overlay text regions — is unchanged by
`detect_faces_frame`. -/
theorem detect_faces_frame_pixels_confined_witness :
    ∃ g : Frame,
      (detect_faces_frame (some ⟨3, 3, fun _ _ => ⟨7, 7, 7⟩⟩) detectNone (11/10) 5
        ⟨0, 255, 0⟩ 2 initFpsState).1.1 = some g ∧
      g.px 0 0 = (⟨3, 3, fun _ _ => ⟨7, 7, 7⟩⟩ : Frame).px 0 0 :=
  detect_faces_frame_pixels_confined ⟨3, 3, fun _ _ => ⟨7, 7, 7⟩⟩ detectNone (11/10) 5
    ⟨0, 255, 0⟩ 2 initFpsState [] (by decide) rfl 0 0 (by
      simp only [overlayRegion, List.any_nil, Bool.false_or, Bool.or_eq_false_iff]
      constructor <;> exact textRegion_false_left _ _ _ _ _ _ (by norm_num))

/-- C9 (the claim fails on the code): the image handed to `detectMultiScale`
is not the luminance of the frame fed through the pipeline. `main` converts
the camera frame BGR→RGB (line 156) and `detect_faces_frame` then applies
`COLOR_BGR2GRAY` (line 98), so the R and B luma weights land on the wrong
channels: for a pure-red camera pixel the detector sees intensity 29.07
where the luminance of the processed frame is 76.245. -/
theorem pipelineGray_not_luminance :
    (pipelineGray redCamFrame).px 0 0 = 2907/100 ∧
    (luminanceRGB (cvtColorBGR2RGB redCamFrame)).px 0 0 = 15249/200 ∧
    (pipelineGray redCamFrame).px 0 0 ≠
      (luminanceRGB (cvtColorBGR2RGB redCamFrame)).px 0 0 := by
  refine ⟨?_, ?_, ?_⟩ <;>
    norm_num [pipelineGray, luminanceRGB, cvtColorBGR2RGB, cvtColorBGR2GRAY, redCamFrame]

theorem load_cascade_body_ok_not_empty (env : CascadeEnv) (c : CascadeClassifier)
    (h : load_cascade_body env = .ok c) : c.empty = false := by
  by_cases h1 : (!env.fileExists && !env.downloadOk) = true
  · simp [load_cascade_body, h1] at h
  · by_cases h2 : env.loadedEmpty = true
    · simp [load_cascade_body, h1, h2] at h
    · rw [Bool.not_eq_true] at h2
      simp [load_cascade_body, h1, h2] at h
      rw [← h]

theorem loadInv_step (env : CascadeEnv) (ps : LoadProcState) (h : loadInv ps) :
    loadInv (load_cascade_classifier env ps).2 := by
  obtain ⟨hruns, halt, hcache⟩ := h
  unfold load_cascade_classifier
  by_cases hab : ps.aborted = true
  · rw [if_pos hab]
    exact ⟨hruns, halt, hcache⟩
  · rw [if_neg hab]
    rcases hc : ps.cache with _ | c
    · have hr0 : ps.bodyRuns = 0 := by
        rcases halt with h0 | hsome | habt
        · exact h0
        · rw [hc] at hsome; simp at hsome
        · exact absurd habt hab
      rcases hbody : load_cascade_body env with e | c
      · simp only [hbody]
        exact ⟨by show ps.bodyRuns + 1 ≤ 1; omega, Or.inr (Or.inr rfl),
          by intro c' hc'; cases hc'⟩
      · simp only [hbody]
        refine ⟨by show ps.bodyRuns + 1 ≤ 1; omega, Or.inr (Or.inl rfl), ?_⟩
        intro c' hc'
        have : c = c' := by injection hc'
        rw [← this]
        exact load_cascade_body_ok_not_empty env c hbody
    · simp only [hc]
      exact ⟨hruns, halt, hcache⟩

theorem load_cascade_seq_inv (envs : List CascadeEnv) :
    loadInv (load_cascade_seq envs initLoadState) := by
  have step : ∀ ps, loadInv ps → loadInv (load_cascade_seq envs ps) := by
    induction envs with
    | nil => intro ps h; exact h
    | cons e rest ih =>
      intro ps h
      exact ih _ (loadInv_step e ps h)
  exact step initLoadState ⟨Nat.zero_le 1, Or.inl rfl, by intro c hc; cases hc⟩

/-- C7: a successful body run never yields an empty classifier; an absent
file whose download fails is fatal (`ResourceUnavailable`), as is a model
that loads empty; a cache hit returns the cached classifier without running
the body; and over any sequence of calls in one process the body runs at
most once, with any cached classifier non-empty — callers never see an
empty detector. -/
theorem load_cascade_classifier_spec :
    (∀ env c, load_cascade_body env = .ok c → c.empty = false) ∧
    (∀ env : CascadeEnv, env.fileExists = false → env.downloadOk = false →
      ∃ msg, load_cascade_body env = .error (.resourceUnavailable msg)) ∧
    (∀ env : CascadeEnv, env.loadedEmpty = true →
      ∃ msg, load_cascade_body env = .error (.resourceUnavailable msg)) ∧
    (∀ env c ps, ps.aborted = false → ps.cache = some c →
      load_cascade_classifier env ps = (.ok c, ps)) ∧
    (∀ envs, (load_cascade_seq envs initLoadState).bodyRuns ≤ 1) ∧
    (∀ envs c, (load_cascade_seq envs initLoadState).cache = some c →
      c.empty = false) := by
  refine ⟨load_cascade_body_ok_not_empty, ?_, ?_, ?_, ?_, ?_⟩
  · intro env h1 h2
    exact ⟨"Erreur de téléchargement", by simp [load_cascade_body, h1, h2]⟩
  · intro env he
    by_cases h1 : (!env.fileExists && !env.downloadOk) = true
    · exact ⟨"Erreur de téléchargement", by simp [load_cascade_body, h1]⟩
    · exact ⟨"Erreur lors de la création du classificateur",
        by simp [load_cascade_body, h1, he]⟩
  · intro env c ps hab hc
    simp [load_cascade_classifier, hab, hc]
  · intro envs
    exact (load_cascade_seq_inv envs).1
  · intro envs c hc
    exact (load_cascade_seq_inv envs).2.2 c hc

/-- C7 witness: a failed download of an absent file is fatal; an empty model
is fatal; a successful load is cached, a second call is a pure cache hit,
and one call sequence runs the body exactly once with a non-empty cached
classifier. -/
theorem load_cascade_classifier_spec_witness :
    (∃ msg, load_cascade_body ⟨false, false, false⟩ =
      .error (.resourceUnavailable msg)) ∧
    (∃ msg, load_cascade_body ⟨true, true, true⟩ =
      .error (.resourceUnavailable msg)) ∧
    load_cascade_classifier ⟨true, true, false⟩ ⟨some ⟨false⟩, 1, false⟩ =
      (.ok ⟨false⟩, ⟨some ⟨false⟩, 1, false⟩) ∧
    (load_cascade_seq [⟨true, true, false⟩] initLoadState).bodyRuns ≤ 1 ∧
    (⟨false⟩ : CascadeClassifier).empty = false :=
  ⟨load_cascade_classifier_spec.2.1 ⟨false, false, false⟩ rfl rfl,
   load_cascade_classifier_spec.2.2.1 ⟨true, true, true⟩ rfl,
   load_cascade_classifier_spec.2.2.2.1 ⟨true, true, false⟩ ⟨false⟩
     ⟨some ⟨false⟩, 1, false⟩ rfl rfl,
   load_cascade_classifier_spec.2.2.2.2.1 [⟨true, true, false⟩],
   load_cascade_classifier_spec.2.2.2.2.2 [⟨true, true, false⟩] ⟨false⟩ rfl⟩

/-- C5: every exit path of `main` leaves the camera released — startup
failure (no handle retained), the run flag never set, normal loop exit, or
the fatal mid-run escalation: after the `finally` block no open handle
remains. -/
theorem visage_main_releases_handle (env : LoopEnv) (initEnv : CamEnv)
    (run : Bool) (fuel : ℕ) :
    openCount (visage_main env initEnv run fuel).cap = 0 := by
  unfold visage_main
  rcases hr : (initialize_camera initEnv).result with e | cap0
  · rfl
  · by_cases hrun : run = true
    · simp only [hrun, if_pos]
      exact openCount_release _
    · rw [Bool.not_eq_true] at hrun
      simp only [hrun, Bool.false_eq_true, if_false]
      exact openCount_release _

theorem captureLoop_fatal_aux (env : LoopEnv) (k : ℕ)
    (hreopen : ∃ msg, (initialize_camera (env.reopenEnv k)).result =
      .error (.cameraUnavailable msg)) :
    ∀ (N fuel : ℕ) (cap : Cap) (n : ℕ) (s : FpsState), N < fuel →
      (∀ m, m < N → validRead (env.camRead (n + m)) = true) →
      validRead (env.camRead (n + N)) = false →
      ∃ s2, captureLoop env fuel cap n k s = ⟨true, n + N + 1, some ⟨false⟩, s2⟩ := by
  intro N
  induction N with
  | zero =>
    intro fuel cap n s hfuel _ hbad
    obtain ⟨fuel2, rfl⟩ : ∃ f2, fuel = f2 + 1 := ⟨fuel - 1, by omega⟩
    obtain ⟨msg, hmsg⟩ := hreopen
    rw [Nat.add_zero] at hbad
    rcases hread : env.camRead n with _ | f
    · exact ⟨s, by simp [captureLoop, hread, hmsg]⟩
    · have hsz : ¬(0 < f.size) := by
        rw [hread] at hbad
        simpa [validRead] using hbad
      exact ⟨s, by simp [captureLoop, hread, hsz, hmsg]⟩
  | succ N ih =>
    intro fuel cap n s hfuel hgood hbad
    obtain ⟨fuel2, rfl⟩ : ∃ f2, fuel = f2 + 1 := ⟨fuel - 1, by omega⟩
    have h0 : validRead (env.camRead n) = true := by
      have := hgood 0 (Nat.succ_pos N)
      rwa [Nat.add_zero] at this
    rcases hread : env.camRead n with _ | f
    · rw [hread] at h0
      simp [validRead] at h0
    · have hsz : 0 < f.size := by
        rw [hread] at h0
        simpa [validRead] using h0
      have step : captureLoop env (fuel2 + 1) cap n k s =
          captureLoop env fuel2 cap (n + 1) k
            (detect_faces_frame (some (cvtColorBGR2RGB f)) env.cascade
              env.scaleFactor env.minNeighbors env.color (env.clock n) s).2 := by
        simp [captureLoop, hread, hsz]
      have hgood2 : ∀ m, m < N →
          validRead (env.camRead (n + 1 + m)) = true := by
        intro m hm
        have := hgood (m + 1) (by omega)
        rwa [show n + (m + 1) = n + 1 + m by omega] at this
      have hbad2 : validRead (env.camRead (n + 1 + N)) = false := by
        rw [show n + 1 + N = n + (N + 1) by omega]
        exact hbad
      obtain ⟨s2, hs2⟩ := ih fuel2 cap (n + 1) _ (by omega) hgood2 hbad2
      rw [show n + 1 + N + 1 = n + (N + 1) + 1 by omega] at hs2
      exact ⟨s2, by rw [step]; exact hs2⟩

/-- C1: if the reads up to iteration N succeed, the read at iteration N
fails, and the subsequent reopen (`initialize_camera`) also fails, then for
any remaining fuel the loop escalates fatally right there (Recovering →
Idle): `fatal` is set, exactly N + 1 iterations ran — nothing iterates
after the failed reopen — and no open handle remains in the slot. -/
theorem captureLoop_reopen_failure_fatal (env : LoopEnv) (cap : Cap)
    (s : FpsState) (N fuel : ℕ)
    (hgood : ∀ m, m < N → validRead (env.camRead m) = true)
    (hbad : validRead (env.camRead N) = false)
    (hreopen : ∃ msg, (initialize_camera (env.reopenEnv 0)).result =
      .error (.cameraUnavailable msg))
    (hfuel : N < fuel) :
    (captureLoop env fuel cap 0 0 s).fatal = true ∧
    (captureLoop env fuel cap 0 0 s).iters = N + 1 ∧
    openCount (captureLoop env fuel cap 0 0 s).cap = 0 := by
  obtain ⟨s2, h⟩ := captureLoop_fatal_aux env 0 hreopen N fuel cap 0 s hfuel
    (by intro m hm; rw [Nat.zero_add]; exact hgood m hm)
    (by rw [Nat.zero_add]; exact hbad)
  rw [h]
  exact ⟨rfl, by show 0 + N + 1 = N + 1; omega, rfl⟩

/-- C1 witness: a camera whose very first read fails and whose reopen also
fails (device no longer opens) ends the loop fatally after exactly one
iteration, with no handle left open. -/
theorem captureLoop_reopen_failure_fatal_witness :
    (captureLoop ⟨fun _ => none, fun _ => ⟨false, fun _ => none⟩, detectNone,
      11/10, 5, ⟨0, 255, 0⟩, fun _ => 0⟩ 4 ⟨true⟩ 0 0 initFpsState).fatal = true ∧
    (captureLoop ⟨fun _ => none, fun _ => ⟨false, fun _ => none⟩, detectNone,
      11/10, 5, ⟨0, 255, 0⟩, fun _ => 0⟩ 4 ⟨true⟩ 0 0 initFpsState).iters = 1 ∧
    openCount (captureLoop ⟨fun _ => none, fun _ => ⟨false, fun _ => none⟩,
      detectNone, 11/10, 5, ⟨0, 255, 0⟩, fun _ => 0⟩ 4 ⟨true⟩ 0 0
      initFpsState).cap = 0 :=
  captureLoop_reopen_failure_fatal
    ⟨fun _ => none, fun _ => ⟨false, fun _ => none⟩, detectNone, 11/10, 5,
      ⟨0, 255, 0⟩, fun _ => 0⟩ ⟨true⟩ initFpsState 0 4
    (fun m hm => absurd hm (by omega)) rfl
    ⟨"Échec de l'ouverture de la caméra", rfl⟩ (by omega)

end Visage
